import Mathlib

/-! # Weather gateway backend: embedding and verification

Shallow embedding of `app/main.py`, the single-file FastAPI weather
gateway.  JSON values are modelled by an inductive `Json` with rational
numbers standing for Python's int/float values (Python compares
`200 == 200.0` as equal, which ℚ reflects).  Python dictionaries are
association lists in insertion order; `dict.get` is modelled by
`dictGet`/`dictGetD`, and dynamic attribute/subscript errors by `PyErr`.

The outcome of the upstream `requests.get` call is a parameter of the
handlers (`UpstreamResult`): a timeout, another transport-level failure
carrying its description, or a completed exchange with an HTTP status
and a parsed JSON body.  The handlers map it to `HandlerResult`: a 200
success body, a raised `HTTPException` (status + detail), or an
exception that escapes the handler (Python's IndexError etc., which the
`except` clauses in the source do not catch).
-/

/-- JSON values.  Numbers are rationals: Python's `==` identifies int
and float values of equal magnitude (`200 == 200.0`). -/
inductive Json where
  | null : Json
  | bool : Bool → Json
  | num : ℚ → Json
  | str : String → Json
  | arr : List Json → Json
  | obj : List (String × Json) → Json

/-- First binding of a key in an association list (Python dict keys are
unique; lookup takes the first match). -/
def jLookup : List (String × Json) → String → Option Json
  | [], _ => none
  | (k, v) :: rest, key => if k = key then some v else jLookup rest key

/-- Python `d.get(key)`: the stored value, or `None` when absent. -/
def dictGet (fields : List (String × Json)) (key : String) : Json :=
  (jLookup fields key).getD Json.null

/-- Python `d.get(key, default)`: the stored value (even when it is
`None`), or the default only when the key is absent. -/
def dictGetD (fields : List (String × Json)) (key : String) (dflt : Json) : Json :=
  (jLookup fields key).getD dflt

/-- Dynamic errors the field-extraction code can raise; none of them is
caught by the handlers' `except` clauses, so they escape to the server
framework (HTTP 500). -/
inductive PyErr where
  | attributeError  -- `.get` called on a value that is not a dict
  | indexError      -- `[0]` on an empty list or empty string
  | keyError        -- `[0]` on a dict (JSON object keys are strings, never 0)
  | typeError       -- `[0]` on a value that is not subscriptable
  deriving DecidableEq

/-- Python `v.get(key)` on an arbitrary value: `AttributeError` unless
`v` is a dict. -/
def pyGet (v : Json) (key : String) : Except PyErr Json :=
  match v with
  | .obj fields => .ok (dictGet fields key)
  | _ => .error .attributeError

/-- Python `v[0]` on an arbitrary JSON value: head of a list, first
character of a string, `IndexError` when empty, `KeyError` on a dict
(a decoded JSON object has no integer key), `TypeError` otherwise. -/
def pyIndexZero (v : Json) : Except PyErr Json :=
  match v with
  | .arr [] => .error .indexError
  | .arr (x :: _) => .ok x
  | .str s =>
      match s.data with
      | [] => .error .indexError
      | c :: _ => .ok (.str (String.mk [c]))
  | .obj _ => .error .keyError
  | _ => .error .typeError

/-- Python `v == 200` for an arbitrary JSON value: only a number of
magnitude 200 compares equal (`True`/`False` are the ints 1/0, never
200; strings, lists, dicts and `None` never equal an int). -/
def eq200 : Json → Bool
  | .num q => q == 200
  | _ => false

/-- `str(e)` for the `HTTPError` raised by `response.raise_for_status()`
(requests renders `"<code> Client Error: <reason> for url: <url>"`; the
reason and url are abstracted). -/
def httpErrorDesc (status : Nat) : String :=
  toString status ++ (if status < 500 then " Client Error" else " Server Error")

/-- Request body of `POST /weather` (pydantic `LocationInput`):
`city_name` required, `lat`/`lon` optional floats. -/
structure LocationInput where
  city_name : String
  lat : Option ℚ := none
  lon : Option ℚ := none

/-- Python truthiness of an optional float: `None` and `0.0` are falsy. -/
def truthyQ : Option ℚ → Bool
  | none => false
  | some q => q != 0

/-- Query parameters of the upstream URL built by the POST handler
(`main.py` lines 49–52).  The f-string's query component is modelled as
key/value pairs in order of appearance; float rendering is `toString`. -/
def request_params (api_key : String) (location : LocationInput) : List (String × String) :=
  if truthyQ location.lat && truthyQ location.lon then
    [("lat", toString (location.lat.getD 0)), ("lon", toString (location.lon.getD 0)),
     ("appid", api_key), ("units", "metric")]
  else
    [("q", location.city_name), ("appid", api_key), ("units", "metric")]

/-- Query parameters of the upstream URL built by the GET handler
(`main.py` line 94). -/
def request_params_get (api_key : String) (city_name : String) : List (String × String) :=
  [("q", city_name), ("appid", api_key), ("units", "metric")]

/-- First binding of a key in a parameter list. -/
def lookupParam : List (String × String) → String → Option String
  | [], _ => none
  | (k, v) :: rest, key => if k = key then some v else lookupParam rest key

/-- Outcome of the upstream `requests.get(url, timeout=10)` call plus
body decoding, seen from the handler. -/
inductive UpstreamResult where
  | timeout                               -- requests.exceptions.Timeout
  | requestError (desc : String)          -- any other RequestException (DNS, refused, TLS, body not JSON)
  | response (status : Nat) (body : Json) -- completed exchange with a decoded JSON body

/-- What the handler produces for one request. -/
inductive HandlerResult where
  | success (body : Json)                  -- HTTP 200 with the returned dict
  | failure (status : Nat) (detail : Json) -- raised fastapi.HTTPException
  | pythonError (e : PyErr)                -- uncaught exception escaping the handler

/-- Field extraction of the POST handler (`main.py` lines 69–80): the
returned dict literal, its values evaluated left to right, each via
chained `.get` with safe defaults except `weather[0]`, whose `[{}]`
default applies only when the key is absent. -/
def response_fields (weather_data : List (String × Json)) : Except PyErr Json := do
  let city := dictGet weather_data "name"
  let country ← pyGet (dictGetD weather_data "sys" (.obj [])) "country"
  let temperature ← pyGet (dictGetD weather_data "main" (.obj [])) "temp"
  let feels_like ← pyGet (dictGetD weather_data "main" (.obj [])) "feels_like"
  let humidity ← pyGet (dictGetD weather_data "main" (.obj [])) "humidity"
  let wind_speed ← pyGet (dictGetD weather_data "wind" (.obj [])) "speed"
  let w0 ← pyIndexZero (dictGetD weather_data "weather" (.arr [.obj []]))
  let weather ← pyGet w0 "description"
  let w1 ← pyIndexZero (dictGetD weather_data "weather" (.arr [.obj []]))
  let icon ← pyGet w1 "icon"
  let coordinates := dictGet weather_data "coord"
  let timestamp := dictGet weather_data "dt"
  return .obj [("city", city), ("country", country), ("temperature", temperature),
    ("feels_like", feels_like), ("humidity", humidity), ("wind_speed", wind_speed),
    ("weather", weather), ("icon", icon), ("coordinates", coordinates),
    ("timestamp", timestamp)]

/-- Field extraction of the GET handler (`main.py` lines 111–122), a
verbatim copy of the POST handler's extraction in the source. -/
def response_fields_get (weather_data : List (String × Json)) : Except PyErr Json := do
  let city := dictGet weather_data "name"
  let country ← pyGet (dictGetD weather_data "sys" (.obj [])) "country"
  let temperature ← pyGet (dictGetD weather_data "main" (.obj [])) "temp"
  let feels_like ← pyGet (dictGetD weather_data "main" (.obj [])) "feels_like"
  let humidity ← pyGet (dictGetD weather_data "main" (.obj [])) "humidity"
  let wind_speed ← pyGet (dictGetD weather_data "wind" (.obj [])) "speed"
  let w0 ← pyIndexZero (dictGetD weather_data "weather" (.arr [.obj []]))
  let weather ← pyGet w0 "description"
  let w1 ← pyIndexZero (dictGetD weather_data "weather" (.arr [.obj []]))
  let icon ← pyGet w1 "icon"
  let coordinates := dictGet weather_data "coord"
  let timestamp := dictGet weather_data "dt"
  return .obj [("city", city), ("country", country), ("temperature", temperature),
    ("feels_like", feels_like), ("humidity", humidity), ("wind_speed", wind_speed),
    ("weather", weather), ("icon", icon), ("coordinates", coordinates),
    ("timestamp", timestamp)]

/-- `POST /weather` handler (`main.py` lines 44–88) given the outcome of
its upstream call.  `raise_for_status` raises `HTTPError` (caught as a
`RequestException`) exactly for statuses 400–599; then the body must be
a dict, its `cod` must equal 200, and the fields are extracted. -/
def get_weather (location : LocationInput) (upstream : UpstreamResult) : HandlerResult :=
  match upstream with
  | .timeout => .failure 504 (.str "Weather API request timed out")
  | .requestError e => .failure 400 (.str ("Weather API request failed: " ++ e))
  | .response status weather_data =>
    if 400 ≤ status ∧ status < 600 then
      .failure 400 (.str ("Weather API request failed: " ++ httpErrorDesc status))
    else
      match weather_data with
      | .obj fields =>
        if eq200 (dictGet fields "cod") then
          match response_fields fields with
          | .ok out => .success out
          | .error e => .pythonError e
        else
          .failure 400 (dictGetD fields "message" (.str "Unknown error from weather API"))
      | _ => .failure 502 (.str "Invalid response from weather API")

/-- `GET /weather` handler (`main.py` lines 90–130), whose body is a
verbatim copy of the POST handler's modulo `LocationInput` construction. -/
def get_weather_get (_city_name : String) (upstream : UpstreamResult) : HandlerResult :=
  match upstream with
  | .timeout => .failure 504 (.str "Weather API request timed out")
  | .requestError e => .failure 400 (.str ("Weather API request failed: " ++ e))
  | .response status weather_data =>
    if 400 ≤ status ∧ status < 600 then
      .failure 400 (.str ("Weather API request failed: " ++ httpErrorDesc status))
    else
      match weather_data with
      | .obj fields =>
        if eq200 (dictGet fields "cod") then
          match response_fields_get fields with
          | .ok out => .success out
          | .error e => .pythonError e
        else
          .failure 400 (dictGetD fields "message" (.str "Unknown error from weather API"))
      | _ => .failure 502 (.str "Invalid response from weather API")

/-- `GET /health` handler (`main.py` lines 132–135).  It is passed the
process configuration (the API credential) like every handler and, as in
the source, reads neither it nor any upstream outcome. -/
def health_check (_api_key : String) : HandlerResult :=
  .success (.obj [("status", .str "Ok"),
    ("message", .str "Weather API is running smoothly!")])

/-- Whether a handler outcome is a raised HTTPException with status 400. -/
def isFailure400 : HandlerResult → Bool
  | .failure 400 _ => true
  | _ => false

/-- The upstream payload of the spec's round-trip scenario. -/
def parisPayload : Json := .obj [("cod", .num 200), ("name", .str "Paris"),
  ("sys", .obj [("country", .str "FR")]),
  ("main", .obj [("temp", .num 15.2), ("feels_like", .num 14.8), ("humidity", .num 70)]),
  ("wind", .obj [("speed", .num 3.1)]),
  ("weather", .arr [.obj [("description", .str "clear sky"), ("icon", .str "01d")]]),
  ("coord", .obj [("lon", .num 2.35), ("lat", .num 48.85)]),
  ("dt", .num 1700000000)]

/-- C1: the claim says a present-but-empty "weather" array yields null
weather/icon fields and normalization never raises; on the code, the
`[{}]` default of `get("weather", [{}])` applies only when the key is
absent, so `[][0]` raises an uncaught IndexError.  This theorem
evaluates the handler at that failing input. -/
theorem c1_empty_weather_array_raises :
    get_weather ⟨"Paris", none, none⟩
      (.response 200 (.obj [("cod", .num 200), ("weather", .arr [])])) =
    .pythonError .indexError := rfl

/-- C2 counterexample: a payload with no `cod` field at all does not
proceed to field extraction — `dict.get("cod")` yields `None`, which is
`!= 200`, so the handler raises the provider error with the fallback
message. -/
theorem c2_counterexample :
    get_weather ⟨"Paris", none, none⟩ (.response 200 (.obj [])) =
      .failure 400 (.str "Unknown error from weather API")
    ∧ jLookup ([] : List (String × Json)) "cod" = none := ⟨rfl, rfl⟩

/-- C2 (amended): on an object payload received with a successful HTTP
exchange, the handler raises the provider error (HTTP 400, detail the
payload's `message` field or the fallback string) exactly when the
`cod` field is **absent or** not equal to the number 200. -/
theorem c2_provider_error_iff_cod_ne_200 (location : LocationInput)
    (fields : List (String × Json)) :
    isFailure400 (get_weather location (.response 200 (.obj fields)))
      = !(eq200 (dictGet fields "cod"))
    ∧ (eq200 (dictGet fields "cod") = false →
        get_weather location (.response 200 (.obj fields)) =
          .failure 400 (dictGetD fields "message"
            (.str "Unknown error from weather API"))) := by
  have hs : ¬ (400 ≤ 200 ∧ 200 < 600) := by decide
  cases h : eq200 (dictGet fields "cod") with
  | false =>
      refine ⟨?_, fun _ => ?_⟩ <;> simp [get_weather, hs, h, isFailure400]
  | true =>
      refine ⟨?_, fun hcontra => by simp [h] at hcontra⟩
      simp only [get_weather]
      rw [if_neg hs]
      simp only [h, if_true]
      cases response_fields fields <;> rfl

/-- C2 witness: at the payload `{"cod": 404}` the hypothesis of the
amended claim's message clause holds and the handler returns the
fallback provider error. -/
theorem c2_witness :
    eq200 (dictGet [("cod", Json.num 404)] "cod") = false ∧
    get_weather ⟨"Paris", none, none⟩ (.response 200 (.obj [("cod", .num 404)])) =
      .failure 400 (dictGetD [("cod", Json.num 404)] "message"
        (.str "Unknown error from weather API")) :=
  ⟨rfl, (c2_provider_error_iff_cod_ne_200 ⟨"Paris", none, none⟩
    [("cod", Json.num 404)]).2 rfl⟩

/-- C3: on the spec's Paris payload the handler returns exactly the
normalized output of the round-trip scenario. -/
theorem c3_paris_round_trip :
    get_weather ⟨"Paris", none, none⟩ (.response 200 parisPayload) =
      .success (.obj [("city", .str "Paris"), ("country", .str "FR"),
        ("temperature", .num 15.2), ("feels_like", .num 14.8), ("humidity", .num 70),
        ("wind_speed", .num 3.1), ("weather", .str "clear sky"), ("icon", .str "01d"),
        ("coordinates", .obj [("lon", .num 2.35), ("lat", .num 48.85)]),
        ("timestamp", .num 1700000000)]) := rfl

/-- C4: an upstream timeout yields exactly HTTP 504 with the fixed
message, and any other transport-level failure yields HTTP 400 with a
message embedding the underlying description — in both handlers. -/
theorem c4_transport_failures (location : LocationInput) (city_name desc : String) :
    get_weather location .timeout = .failure 504 (.str "Weather API request timed out")
    ∧ get_weather location (.requestError desc) =
        .failure 400 (.str ("Weather API request failed: " ++ desc))
    ∧ get_weather_get city_name .timeout =
        .failure 504 (.str "Weather API request timed out")
    ∧ get_weather_get city_name (.requestError desc) =
        .failure 400 (.str ("Weather API request failed: " ++ desc)) :=
  ⟨rfl, rfl, rfl, rfl⟩

/-- C5: when the upstream exchange succeeds (status outside 400–599) but
the decoded body is not an object, the handler raises HTTP 502 with the
fixed message. -/
theorem c5_non_object_body (location : LocationInput) (status : Nat) (body : Json)
    (hstatus : ¬ (400 ≤ status ∧ status < 600))
    (hbody : ∀ fields, body ≠ Json.obj fields) :
    get_weather location (.response status body) =
      .failure 502 (.str "Invalid response from weather API") := by
  simp only [get_weather]
  rw [if_neg hstatus]

/-- C5 witness: a bare-array body at HTTP status 200. -/
theorem c5_witness :
    get_weather ⟨"Paris", none, none⟩ (.response 200 (.arr [])) =
      .failure 502 (.str "Invalid response from weather API") :=
  c5_non_object_body ⟨"Paris", none, none⟩ 200 (.arr []) (by decide)
    (fun _ h => Json.noConfusion h)

/-- C6: with both coordinates set and non-zero, the upstream query
carries `lat`/`lon` and no `q`; with only the city name set it carries
`q=<city_name>` and no `lat`/`lon`; both carry `units=metric` and the
configured credential. -/
theorem c6_query_params (api_key city : String) (a b : ℚ)
    (ha : a ≠ 0) (hb : b ≠ 0) :
    (lookupParam (request_params api_key ⟨city, some a, some b⟩) "lat" = some (toString a)
     ∧ lookupParam (request_params api_key ⟨city, some a, some b⟩) "lon" = some (toString b)
     ∧ lookupParam (request_params api_key ⟨city, some a, some b⟩) "q" = none
     ∧ lookupParam (request_params api_key ⟨city, some a, some b⟩) "appid" = some api_key
     ∧ lookupParam (request_params api_key ⟨city, some a, some b⟩) "units" = some "metric")
    ∧ (lookupParam (request_params api_key ⟨city, none, none⟩) "q" = some city
     ∧ lookupParam (request_params api_key ⟨city, none, none⟩) "lat" = none
     ∧ lookupParam (request_params api_key ⟨city, none, none⟩) "lon" = none
     ∧ lookupParam (request_params api_key ⟨city, none, none⟩) "appid" = some api_key
     ∧ lookupParam (request_params api_key ⟨city, none, none⟩) "units" = some "metric") := by
  have e1 : request_params api_key ⟨city, some a, some b⟩ =
      [("lat", toString a), ("lon", toString b), ("appid", api_key), ("units", "metric")] := by
    simp [request_params, truthyQ, bne_iff_ne, ha, hb]
  have e2 : request_params api_key ⟨city, none, none⟩ =
      [("q", city), ("appid", api_key), ("units", "metric")] := rfl
  rw [e1, e2]
  exact ⟨⟨rfl, rfl, rfl, rfl, rfl⟩, rfl, rfl, rfl, rfl, rfl⟩

/-- C6 witness: concrete coordinates 48.85 / 2.35 and a concrete city. -/
theorem c6_witness :
    (lookupParam (request_params "k" ⟨"Paris", some 48.85, some 2.35⟩) "lat"
        = some (toString (48.85 : ℚ))
     ∧ lookupParam (request_params "k" ⟨"Paris", some 48.85, some 2.35⟩) "lon"
        = some (toString (2.35 : ℚ))
     ∧ lookupParam (request_params "k" ⟨"Paris", some 48.85, some 2.35⟩) "q" = none
     ∧ lookupParam (request_params "k" ⟨"Paris", some 48.85, some 2.35⟩) "appid" = some "k"
     ∧ lookupParam (request_params "k" ⟨"Paris", some 48.85, some 2.35⟩) "units" = some "metric")
    ∧ (lookupParam (request_params "k" ⟨"Paris", none, none⟩) "q" = some "Paris"
     ∧ lookupParam (request_params "k" ⟨"Paris", none, none⟩) "lat" = none
     ∧ lookupParam (request_params "k" ⟨"Paris", none, none⟩) "lon" = none
     ∧ lookupParam (request_params "k" ⟨"Paris", none, none⟩) "appid" = some "k"
     ∧ lookupParam (request_params "k" ⟨"Paris", none, none⟩) "units" = some "metric") :=
  c6_query_params "k" "Paris" 48.85 2.35 (by norm_num) (by norm_num)

/-- C7: whenever either coordinate is unset or equal to 0.0 — even if the
other is non-zero — the truthiness check fails and the query is built
from the city name. -/
theorem c7_zero_coordinate_falls_back_to_city (api_key city : String)
    (olat olon : Option ℚ)
    (h : olat = none ∨ olat = some 0 ∨ olon = none ∨ olon = some 0) :
    request_params api_key ⟨city, olat, olon⟩ =
      [("q", city), ("appid", api_key), ("units", "metric")] := by
  have ht : (truthyQ olat && truthyQ olon) = false := by
    rcases h with h | h | h | h <;> subst h <;> simp [truthyQ]
  simp [request_params, ht]

/-- C7 witness: latitude exactly 0.0 with a non-zero longitude still
queries by city name. -/
theorem c7_witness :
    request_params "k" ⟨"Quito", some 0, some 10⟩ =
      [("q", "Quito"), ("appid", "k"), ("units", "metric")] :=
  c7_zero_coordinate_falls_back_to_city "k" "Quito" (some 0) (some 10)
    (Or.inr (Or.inl rfl))

/-- C8: the health endpoint returns the fixed success payload whatever
the configured credential is; it takes no upstream outcome at all. -/
theorem c8_health_fixed_payload (api_key other_key : String) :
    health_check api_key = .success (.obj [("status", .str "Ok"),
      ("message", .str "Weather API is running smoothly!")])
    ∧ health_check api_key = health_check other_key := ⟨rfl, rfl⟩

/-- C9: the GET entry point builds the same upstream query as the POST
entry point does for the `LocationInput` it induces (city only, lat/lon
unset), and for every upstream outcome both produce the same result. -/
theorem c9_get_post_equivalence (api_key city_name : String)
    (upstream : UpstreamResult) :
    request_params_get api_key city_name =
      request_params api_key ⟨city_name, none, none⟩
    ∧ get_weather_get city_name upstream =
      get_weather ⟨city_name, none, none⟩ upstream := by
  refine ⟨rfl, ?_⟩
  cases upstream with
  | timeout => rfl
  | requestError e => rfl
  | response status body => rfl

/-- C10 counterexample: an upstream response with the non-2xx status 304
is not rejected by `raise_for_status` (which raises only for 400–599);
its body **is** inspected, and with `cod = 200` the handler returns a
success, not the claimed HTTP 400 failure. -/
theorem c10_counterexample :
    get_weather ⟨"Paris", none, none⟩ (.response 304 (.obj [("cod", .num 200)])) =
      .success (.obj [("city", .null), ("country", .null), ("temperature", .null),
        ("feels_like", .null), ("humidity", .null), ("wind_speed", .null),
        ("weather", .null), ("icon", .null), ("coordinates", .null),
        ("timestamp", .null)])
    ∧ isFailure400 (get_weather ⟨"Paris", none, none⟩
        (.response 304 (.obj [("cod", .num 200)]))) = false := ⟨rfl, rfl⟩

/-- C10 (amended): for upstream statuses in 400–599 the handler fails
with HTTP 400 and the transport-failure message, and the response body
is never consulted (the outcome is the same for any two bodies). -/
theorem c10_4xx_5xx_before_body (location : LocationInput) (status : Nat)
    (body other : Json) (h1 : 400 ≤ status) (h2 : status < 600) :
    get_weather location (.response status body) =
      .failure 400 (.str ("Weather API request failed: " ++ httpErrorDesc status))
    ∧ get_weather location (.response status body) =
      get_weather location (.response status other) := by
  have e : ∀ b : Json, get_weather location (.response status b) =
      .failure 400 (.str ("Weather API request failed: " ++ httpErrorDesc status)) := by
    intro b
    simp only [get_weather]
    rw [if_pos ⟨h1, h2⟩]
  exact ⟨e body, (e body).trans (e other).symm⟩

/-- C10 witness: a 404 upstream response, checked against two different
bodies. -/
theorem c10_witness :
    get_weather ⟨"Paris", none, none⟩ (.response 404 (.obj [("cod", .num 200)])) =
      .failure 400 (.str ("Weather API request failed: " ++ httpErrorDesc 404))
    ∧ get_weather ⟨"Paris", none, none⟩ (.response 404 (.obj [("cod", .num 200)])) =
      get_weather ⟨"Paris", none, none⟩ (.response 404 (.arr [])) :=
  c10_4xx_5xx_before_body ⟨"Paris", none, none⟩ 404 (.obj [("cod", .num 200)])
    (.arr []) (by norm_num) (by norm_num)
